import Mathlib

/-!
Verification of Quinta0/Mandelbrot (set.py and gpuset.py) against its
natural-language specification.

Floating-point arithmetic in the sources (Python floats, OpenCL `float`)
is modelled by exact rational arithmetic (`ℚ`); machine iteration
counters and pixel indices by `Nat`/`Int`.  Division by zero in `ℚ`
yields 0, which is noted wherever it matters.
-/

namespace Mandelbrot

/-! ### Escape-time kernels -/

/-- Loop body of set.py `mandelbrot`: `z = c; for n in range(max_iter):
if abs(z) > 2: return n; z = z*z + c; return max_iter`.  The test
`abs(z) > 2` is expressed in exact arithmetic as `re² + im² > 4`
(equivalent for real/imaginary parts); `z*z + c` for `z = (a, b)` is
`(a² - b² + cRe, 2ab + cIm)`.  `n` counts completed checks, `fuel` the
remaining range; at exhaustion the accumulated `n` equals the original
`max_iter`, matching the final `return max_iter`. -/
def mandelLoopPy (cRe cIm zRe zIm : ℚ) (n fuel : Nat) : Nat :=
  match fuel with
  | 0 => n
  | Nat.succ fuel' =>
      if zRe * zRe + zIm * zIm > 4 then n
      else mandelLoopPy cRe cIm (zRe * zRe - zIm * zIm + cRe) (2 * zRe * zIm + cIm) (n + 1) fuel'

/-- set.py `mandelbrot(c, max_iter)`: starts with `z = c`. -/
def mandelbrot (cRe cIm : ℚ) (maxIter : Nat) : Nat :=
  mandelLoopPy cRe cIm cRe cIm 0 maxIter

/-- Loop of the OpenCL kernel in gpuset.py `program_src`:
`for (iter = 0; iter < max_iter; iter++) { real2 = real*real; imag2 = imag*imag;
if (real2 + imag2 > 4.0f) break; imag = 2*real*imag + c_imag;
real = real2 - imag2 + c_real; }` — the check fires before the update,
and both updates read the pre-iteration values. -/
def mandelLoopCL (cRe cIm re im : ℚ) (iter fuel : Nat) : Nat :=
  match fuel with
  | 0 => iter
  | Nat.succ fuel' =>
      let real2 := re * re
      let imag2 := im * im
      if real2 + imag2 > 4 then iter
      else mandelLoopCL cRe cIm (real2 - imag2 + cRe) (2 * re * im + cIm) (iter + 1) fuel'

/-- gpuset.py kernel per-point evaluation: `c_real = real; c_imag = imag`
with `real`, `imag` initialised to the plane coordinate (so z starts at c). -/
def mandelbrotCL (cRe cIm : ℚ) (maxIter : Nat) : Nat :=
  mandelLoopCL cRe cIm cRe cIm 0 maxIter

/-- At c = 0 the orbit stays at 0 and the loop runs to exhaustion. -/
theorem mandelLoopPy_zero (fuel : Nat) : ∀ n, mandelLoopPy 0 0 0 0 n fuel = n + fuel := by
  induction fuel with
  | zero => intro n; simp [mandelLoopPy]
  | succ fuel ih =>
      intro n
      rw [mandelLoopPy]
      norm_num
      rw [ih (n + 1)]
      omega

/-- Same exhaustion fact for the OpenCL loop at c = 0. -/
theorem mandelLoopCL_zero (fuel : Nat) : ∀ n, mandelLoopCL 0 0 0 0 n fuel = n + fuel := by
  induction fuel with
  | zero => intro n; simp [mandelLoopCL]
  | succ fuel ih =>
      intro n
      rw [mandelLoopCL]
      norm_num
      rw [ih (n + 1)]
      omega

/-- One unfolding of the set.py loop. -/
theorem mandelLoopPy_succ (cRe cIm zRe zIm : ℚ) (n f : Nat) :
    mandelLoopPy cRe cIm zRe zIm n (f + 1) =
      if zRe * zRe + zIm * zIm > 4 then n
      else mandelLoopPy cRe cIm (zRe * zRe - zIm * zIm + cRe) (2 * zRe * zIm + cIm) (n + 1) f :=
  rfl

/-- One unfolding of the OpenCL loop. -/
theorem mandelLoopCL_succ (cRe cIm re im : ℚ) (iter f : Nat) :
    mandelLoopCL cRe cIm re im iter (f + 1) =
      if re * re + im * im > 4 then iter
      else mandelLoopCL cRe cIm (re * re - im * im + cRe) (2 * re * im + cIm) (iter + 1) f :=
  rfl

/-- C1: the escape test is strict (`> 4`) and checked before the z-update:
at c = 3 the count is 0, at c = 2 the first check does not fire so the
count is at least 1, and at c = 0 the kernel returns `maxIter` — in both
the set.py kernel and the OpenCL kernel. -/
theorem C1_escape_test_semantics :
    mandelbrot 3 0 256 = 0 ∧ 1 ≤ mandelbrot 2 0 256 ∧ mandelbrot 0 0 256 = 256 ∧
    mandelbrotCL 3 0 256 = 0 ∧ 1 ≤ mandelbrotCL 2 0 256 ∧ mandelbrotCL 0 0 256 = 256 := by
  have h256 : (256 : Nat) = 255 + 1 := rfl
  have h255 : (255 : Nat) = 254 + 1 := rfl
  refine ⟨?_, ?_, ?_, ?_, ?_, ?_⟩
  · rw [mandelbrot, h256, mandelLoopPy_succ, if_pos (by norm_num)]
  · rw [mandelbrot, h256, mandelLoopPy_succ, if_neg (by norm_num), h255,
      mandelLoopPy_succ, if_pos (by norm_num)]
  · rw [mandelbrot, mandelLoopPy_zero]
  · rw [mandelbrotCL, h256, mandelLoopCL_succ, if_pos (by norm_num)]
  · rw [mandelbrotCL, h256, mandelLoopCL_succ, if_neg (by norm_num), h255,
      mandelLoopCL_succ, if_pos (by norm_num)]
  · rw [mandelbrotCL, mandelLoopCL_zero]

/-! ### Grid evaluation -/

/-- numpy `linspace(a, b, n)` in exact arithmetic: `n` evenly spaced
samples from `a` to `b` inclusive, sample `i` being `a + (b-a)·i/(n-1)`.
For `n = 1` the `ℚ` convention `q / 0 = 0` makes the single sample `a`,
matching numpy's `linspace(a, b, 1) = [a]`. -/
def linspace (a b : ℚ) (n : Nat) : List ℚ :=
  (List.range n).map (fun i : Nat => a + (b - a) * (i : ℚ) / ((n : ℚ) - 1))

/-- set.py `mandelbrot_row`: `r1 = linspace(xmin, xmax, width)`,
`r2 = linspace(ymin, ymax, height)`, `row[i] = mandelbrot(r1[i] + 1j*r2[y])`. -/
def mandelbrot_row (xmin xmax ymin ymax : ℚ) (width height maxIter y : Nat) : List Nat :=
  let r1 := linspace xmin xmax width
  let r2 := linspace ymin ymax height
  (List.range width).map (fun i => mandelbrot (r1.getD i 0) (r2.getD y 0) maxIter)

/-- set.py `mandelbrot_set`: `executor.map` over `range(height)` returns
one row per `y` in input order (documented `concurrent.futures` map
semantics), stacked into a height × width array. -/
def mandelbrot_set (xmin xmax ymin ymax : ℚ) (width height maxIter : Nat) : List (List Nat) :=
  (List.range height).map (fun y => mandelbrot_row xmin xmax ymin ymax width height maxIter y)

/-- One work-item of the gpuset.py OpenCL kernel at global id `gid`:
`x = gid % width; y = gid / width;
real = xmin + (xmax - xmin) * x / (float)width;
imag = ymin + (ymax - ymin) * y / (float)height;` then the escape loop
with `c_real = real`, `c_imag = imag`. -/
def mandelbrotKernel (width height : Nat) (xmin xmax ymin ymax : ℚ) (maxIter gid : Nat) : Nat :=
  let x := gid % width
  let y := gid / width
  let real := xmin + (xmax - xmin) * (x : ℚ) / (width : ℚ)
  let imag := ymin + (ymax - ymin) * (y : ℚ) / (height : ℚ)
  mandelbrotCL real imag maxIter

/-- gpuset.py `mandelbrot_set`: dispatches one work-item per
`gid < width*height` writing `output[gid]`; the flat buffer is copied
back into a `(height, width)` row-major array, so row `y`, column `x`
holds the value computed at `gid = y*width + x`. -/
def mandelbrot_set_cl (xmin xmax ymin ymax : ℚ) (width height maxIter : Nat) : List (List Nat) :=
  (List.range height).map (fun y =>
    (List.range width).map (fun x =>
      mandelbrotKernel width height xmin xmax ymin ymax maxIter (y * width + x)))

/-- Row-major cell access used to state per-cell facts about grids. -/
def gridGet (g : List (List Nat)) (y x : Nat) : Nat := (g.getD y []).getD x 0

/-- The escape loop adds at most `fuel` to the incoming counter. -/
theorem mandelLoopPy_le : ∀ (fuel : Nat) (cRe cIm zRe zIm : ℚ) (n : Nat),
    mandelLoopPy cRe cIm zRe zIm n fuel ≤ n + fuel
  | 0, _, _, _, _, _ => Nat.le_refl _
  | Nat.succ f, cRe, cIm, zRe, zIm, n => by
      rw [show Nat.succ f = f + 1 from rfl, mandelLoopPy_succ]
      split
      · omega
      · have := mandelLoopPy_le f cRe cIm (zRe * zRe - zIm * zIm + cRe) (2 * zRe * zIm + cIm) (n + 1)
        omega

/-- Same bound for the OpenCL loop. -/
theorem mandelLoopCL_le : ∀ (fuel : Nat) (cRe cIm re im : ℚ) (iter : Nat),
    mandelLoopCL cRe cIm re im iter fuel ≤ iter + fuel
  | 0, _, _, _, _, _ => Nat.le_refl _
  | Nat.succ f, cRe, cIm, re, im, iter => by
      rw [show Nat.succ f = f + 1 from rfl, mandelLoopCL_succ]
      split
      · omega
      · have := mandelLoopCL_le f cRe cIm (re * re - im * im + cRe) (2 * re * im + cIm) (iter + 1)
        omega

/-- The set.py kernel never exceeds the iteration cap. -/
theorem mandelbrot_le (cRe cIm : ℚ) (m : Nat) : mandelbrot cRe cIm m ≤ m := by
  have := mandelLoopPy_le m cRe cIm cRe cIm 0
  simpa [mandelbrot] using this

/-- The OpenCL kernel never exceeds the iteration cap. -/
theorem mandelbrotCL_le (cRe cIm : ℚ) (m : Nat) : mandelbrotCL cRe cIm m ≤ m := by
  have := mandelLoopCL_le m cRe cIm cRe cIm 0
  simpa [mandelbrotCL] using this

/-- `getD` on a mapped range hits the function. -/
theorem getD_range_map {α : Type} (f : Nat → α) (d : α) (n i : Nat) (h : i < n) :
    ((List.range n).map f).getD i d = f i := by
  rw [List.getD_eq_getElem?_getD, List.getElem?_map, List.getElem?_range h]
  rfl

/-- C2: for positive resolution and iteration cap, both grid evaluators
return exactly `h` rows of exactly `w` columns with every cell in
`[0, maxIter]` (cells are `Nat`, so only the upper bound is substantive). -/
theorem C2_grid_shape_and_range (xmin xmax ymin ymax : ℚ) (w h m : Nat)
    (hw : 0 < w) (hh : 0 < h) (hm : 0 < m) :
    ((mandelbrot_set xmin xmax ymin ymax w h m).length = h
      ∧ ∀ row ∈ mandelbrot_set xmin xmax ymin ymax w h m,
          row.length = w ∧ ∀ v ∈ row, v ≤ m)
  ∧ ((mandelbrot_set_cl xmin xmax ymin ymax w h m).length = h
      ∧ ∀ row ∈ mandelbrot_set_cl xmin xmax ymin ymax w h m,
          row.length = w ∧ ∀ v ∈ row, v ≤ m) := by
  refine ⟨⟨by simp [mandelbrot_set], ?_⟩, ⟨by simp [mandelbrot_set_cl], ?_⟩⟩
  · intro row hrow
    simp only [mandelbrot_set, List.mem_map, List.mem_range] at hrow
    obtain ⟨y, -, rfl⟩ := hrow
    refine ⟨by simp [mandelbrot_row], ?_⟩
    intro v hv
    simp only [mandelbrot_row, List.mem_map, List.mem_range] at hv
    obtain ⟨i, -, rfl⟩ := hv
    exact mandelbrot_le _ _ _
  · intro row hrow
    simp only [mandelbrot_set_cl, List.mem_map, List.mem_range] at hrow
    obtain ⟨y, -, rfl⟩ := hrow
    refine ⟨by simp, ?_⟩
    intro v hv
    simp only [List.mem_map, List.mem_range] at hv
    obtain ⟨x, -, rfl⟩ := hv
    exact mandelbrotCL_le _ _ _

/-- Witness for C2 at a concrete viewport and 2×2 resolution. -/
theorem C2_grid_shape_and_range_witness :
    (0 < 2 ∧ 0 < 2 ∧ 0 < 3)
  ∧ (((mandelbrot_set 0 1 0 1 2 2 3).length = 2
      ∧ ∀ row ∈ mandelbrot_set 0 1 0 1 2 2 3, row.length = 2 ∧ ∀ v ∈ row, v ≤ 3)
  ∧ ((mandelbrot_set_cl 0 1 0 1 2 2 3).length = 2
      ∧ ∀ row ∈ mandelbrot_set_cl 0 1 0 1 2 2 3, row.length = 2 ∧ ∀ v ∈ row, v ≤ 3)) :=
  ⟨⟨by decide, by decide, by decide⟩,
    C2_grid_shape_and_range 0 1 0 1 2 2 3 (by decide) (by decide) (by decide)⟩

/-! ### C8: thread-pool vs naive sequential evaluation -/

/-- A naive sequential evaluator, written from the spec's words for the
refinement claim C8: visit each pixel in row-major order (outer loop
over rows `y`, inner loop over columns `x`) and call the same per-point
kernel `mandelbrot` at the same sample coordinates. -/
def sequentialGrid (xmin xmax ymin ymax : ℚ) (width height maxIter : Nat) : List (List Nat) :=
  (List.range height).map (fun y =>
    (List.range width).map (fun x =>
      mandelbrot ((linspace xmin xmax width).getD x 0) ((linspace ymin ymax height).getD y 0) maxIter))

/-- C8: the thread-pool evaluator (one `mandelbrot_row` task per `y`,
results gathered in input order) produces the very grid the naive
row-major sequential evaluator produces, for every viewport,
resolution and iteration cap. -/
theorem C8_parallel_sequential_equiv (xmin xmax ymin ymax : ℚ) (w h m : Nat) :
    mandelbrot_set xmin xmax ymin ymax w h m = sequentialGrid xmin xmax ymin ymax w h m := rfl

/-! ### C6: pixel-to-plane coordinate mapping -/

/-- The grid that claim C6 describes for the thread-pool variant: pixel
`(x, y)` mapped via `real = xmin + (xmax - xmin) * x / width`,
`imag = ymin + (ymax - ymin) * y / height`, then the set.py kernel.
Written from the spec's words, for comparison with `mandelbrot_set`. -/
def claimedGridPy (xmin xmax ymin ymax : ℚ) (width height maxIter : Nat) : List (List Nat) :=
  (List.range height).map (fun y : Nat =>
    (List.range width).map (fun x : Nat =>
      mandelbrot (xmin + (xmax - xmin) * (x : ℚ) / (width : ℚ))
        (ymin + (ymax - ymin) * (y : ℚ) / (height : ℚ)) maxIter))

/-- C6 counterexample: on the viewport `[0,3] × {0}` at resolution 2×1
with cap 5, the thread-pool evaluator samples pixel `x = 1` at the
linspace point 3 (escape count 0), while the claimed `x / width`
mapping samples it at 3/2 (escape count 1): the grids differ. -/
theorem C6_counterexample :
    mandelbrot_set 0 3 0 0 2 1 5 = [[5, 0]]
  ∧ claimedGridPy 0 3 0 0 2 1 5 = [[5, 1]]
  ∧ mandelbrot_set 0 3 0 0 2 1 5 ≠ claimedGridPy 0 3 0 0 2 1 5 := by
  have h0 : mandelbrot 0 0 5 = 5 := by rw [mandelbrot, mandelLoopPy_zero]
  have h3 : mandelbrot 3 0 5 = 0 := by
    rw [mandelbrot, show (5 : Nat) = 4 + 1 from rfl, mandelLoopPy_succ, if_pos (by norm_num)]
  have h32 : mandelbrot (3 / 2) 0 5 = 1 := by
    rw [mandelbrot, show (5 : Nat) = 4 + 1 from rfl, mandelLoopPy_succ, if_neg (by norm_num),
      show (4 : Nat) = 3 + 1 from rfl, mandelLoopPy_succ, if_pos (by norm_num)]
  have e1 : mandelbrot_set 0 3 0 0 2 1 5 = [[5, 0]] := by
    simp only [mandelbrot_set, mandelbrot_row, linspace,
      show List.range 1 = [0] from rfl, show List.range 2 = [0, 1] from rfl,
      List.map_cons, List.map_nil, List.getD_cons_zero, List.getD_cons_succ]
    norm_num [h0, h3]
  have e2 : claimedGridPy 0 3 0 0 2 1 5 = [[5, 1]] := by
    simp only [claimedGridPy,
      show List.range 1 = [0] from rfl, show List.range 2 = [0, 1] from rfl,
      List.map_cons, List.map_nil]
    norm_num [h0, h32]
  refine ⟨e1, e2, ?_⟩
  rw [e1, e2]
  decide

/-- C6 amended: the data-parallel variant does map pixel `(x, y)` to
`xmin + (xmax - xmin) * x / width` (and `y / height`); the thread-pool
variant instead samples the endpoint-inclusive linspace points
`xmin + (xmax - xmin) * x / (width - 1)` (and `y / (height - 1)`),
each passed to the respective per-point kernel. -/
theorem C6_amended_coordinate_mapping (xmin xmax ymin ymax : ℚ) (w h m x y : Nat)
    (hx : x < w) (hy : y < h) :
    gridGet (mandelbrot_set_cl xmin xmax ymin ymax w h m) y x =
      mandelbrotCL (xmin + (xmax - xmin) * (x : ℚ) / (w : ℚ))
        (ymin + (ymax - ymin) * (y : ℚ) / (h : ℚ)) m
  ∧ gridGet (mandelbrot_set xmin xmax ymin ymax w h m) y x =
      mandelbrot (xmin + (xmax - xmin) * (x : ℚ) / ((w : ℚ) - 1))
        (ymin + (ymax - ymin) * (y : ℚ) / ((h : ℚ) - 1)) m := by
  have hw : 0 < w := Nat.lt_of_le_of_lt (Nat.zero_le x) hx
  have hmod : (y * w + x) % w = x := by
    rw [Nat.mul_comm y w, Nat.mul_add_mod, Nat.mod_eq_of_lt hx]
  have hdiv : (y * w + x) / w = y := by
    rw [Nat.mul_comm y w, Nat.mul_add_div hw, Nat.div_eq_of_lt hx]
    omega
  constructor
  · rw [gridGet, mandelbrot_set_cl, getD_range_map _ _ _ _ hy, getD_range_map _ _ _ _ hx]
    simp only [mandelbrotKernel]
    rw [hmod, hdiv]
  · rw [gridGet, mandelbrot_set, getD_range_map _ _ _ _ hy]
    simp only [mandelbrot_row, linspace]
    rw [getD_range_map _ _ _ _ hx, getD_range_map _ _ _ _ hx, getD_range_map _ _ _ _ hy]

/-- Witness for the amended C6 at pixel (1, 0) of the 2×1 grid. -/
theorem C6_amended_coordinate_mapping_witness :
    gridGet (mandelbrot_set_cl 0 3 0 0 2 1 5) 0 1 = mandelbrotCL (0 + (3 - 0) * 1 / 2) (0 + (0 - 0) * 0 / 1) 5
  ∧ gridGet (mandelbrot_set 0 3 0 0 2 1 5) 0 1 = mandelbrot (0 + (3 - 0) * 1 / (2 - 1)) (0 + (0 - 0) * 0 / (1 - 1)) 5 :=
  C6_amended_coordinate_mapping 0 3 0 0 2 1 5 1 0 (by decide) (by decide)

/-! ### Viewport state and the zoom transform (gpuset.py) -/

/-- gpuset.py constant `WIDTH = 800` (screen width). -/
def WIDTH : Nat := 800

/-- gpuset.py constant `HEIGHT = 600` (screen height). -/
def HEIGHT : Nat := 600

/-- gpuset.py constant `INITIAL_MAX_ITER = 256`. -/
def INITIAL_MAX_ITER : Nat := 256

/-- gpuset.py constant `MIN_RENDER_WIDTH = 100` (defined in the source
but referenced nowhere else). -/
def MIN_RENDER_WIDTH : Nat := 100

/-- gpuset.py constant `MIN_RENDER_HEIGHT = 75` (defined in the source
but referenced nowhere else). -/
def MIN_RENDER_HEIGHT : Nat := 75

/-- gpuset.py constant `MAX_RENDER_WIDTH = WIDTH`. -/
def MAX_RENDER_WIDTH : Nat := WIDTH

/-- gpuset.py constant `MAX_RENDER_HEIGHT = HEIGHT`. -/
def MAX_RENDER_HEIGHT : Nat := HEIGHT

/-- The mutable view state of gpuset.py: plane bounds
`xmin, xmax, ymin, ymax`, render resolution `RENDER_WIDTH,
RENDER_HEIGHT`, and iteration cap `MAX_ITER`. -/
structure Viewport where
  xmin : ℚ
  xmax : ℚ
  ymin : ℚ
  ymax : ℚ
  renderWidth : Int
  renderHeight : Int
  maxIter : Int
  deriving DecidableEq

/-- Python `int()` on a rational: truncation toward zero. -/
def truncInt (q : ℚ) : Int := if 0 ≤ q then ⌊q⌋ else ⌈q⌉

/-- gpuset.py `auto_zoom(zoom_factor, mouse_x, mouse_y)`:
`x_center = xmin + (xmax - xmin) * mouse_x / WIDTH` (same for y with
HEIGHT), halved/scaled extents `width = (xmax - xmin) / zoom_factor`,
new bounds centred on `(x_center, y_center)`, and
`RENDER_WIDTH = min(MAX_RENDER_WIDTH, int(RENDER_WIDTH * zoom_factor))`,
`RENDER_HEIGHT = min(MAX_RENDER_HEIGHT, int(RENDER_HEIGHT * zoom_factor))`,
`MAX_ITER = min(2048, int(MAX_ITER * zoom_factor))`. -/
def auto_zoom (v : Viewport) (zoom_factor mouse_x mouse_y : ℚ) : Viewport :=
  let x_center := v.xmin + (v.xmax - v.xmin) * mouse_x / (WIDTH : ℚ)
  let y_center := v.ymin + (v.ymax - v.ymin) * mouse_y / (HEIGHT : ℚ)
  let width := (v.xmax - v.xmin) / zoom_factor
  let height := (v.ymax - v.ymin) / zoom_factor
  { xmin := x_center - width / 2
    xmax := x_center + width / 2
    ymin := y_center - height / 2
    ymax := y_center + height / 2
    renderWidth := min (MAX_RENDER_WIDTH : Int) (truncInt ((v.renderWidth : ℚ) * zoom_factor))
    renderHeight := min (MAX_RENDER_HEIGHT : Int) (truncInt ((v.renderHeight : ℚ) * zoom_factor))
    maxIter := min 2048 (truncInt ((v.maxIter : ℚ) * zoom_factor)) }

/-- gpuset.py initial state: bounds (-2.0, 1.0, -1.5, 1.5), resolution
`RENDER_WIDTH, RENDER_HEIGHT = 800, 600`, `MAX_ITER = INITIAL_MAX_ITER`. -/
def initialViewport : Viewport :=
  { xmin := -2, xmax := 1, ymin := -3/2, ymax := 3/2
    renderWidth := 800, renderHeight := 600, maxIter := 256 }

/-- C3 counterexample: zooming in on the initial viewport at screen
point (400, 300) with factor 1.2 recentres on the plane point
(-1/2, 0) (the image of the focal point), giving xmin = -7/4 = -1.75,
not the claimed ≈ -1.667 = -5/3; the gap is 1/12 ≈ 0.083, far beyond
floating-point tolerance. -/
theorem C3_counterexample :
    (auto_zoom initialViewport (6/5) 400 300).xmin = -7/4
  ∧ ((-7/4 : ℚ) ≠ -5/3) ∧ |(-7/4 : ℚ) - (-5/3)| = 1/12 ∧ ((1/100 : ℚ) < 1/12) := by
  refine ⟨?_, by norm_num, by rw [abs_sub_comm]; norm_num, by norm_num⟩
  simp only [auto_zoom, initialViewport, WIDTH]
  norm_num

/-- C3 amended: the same zoom-in yields bounds
xmin = -1.75, xmax = 0.75, ymin = -1.25, ymax = 1.25 (the zoom
recentres on the plane image of the focal point, here (-1/2, 0)),
resolution clamped to 800×600, and maxIter 307. -/
theorem C3_amended_zoom_scenario :
    auto_zoom initialViewport (6/5) 400 300 =
      { xmin := -7/4, xmax := 3/4, ymin := -5/4, ymax := 5/4
        renderWidth := 800, renderHeight := 600, maxIter := 307 } := by
  simp only [auto_zoom, initialViewport, truncInt, WIDTH, HEIGHT,
    MAX_RENDER_WIDTH, MAX_RENDER_HEIGHT, Viewport.mk.injEq]
  norm_num

/-- C4 counterexample: `auto_zoom` applies no lower clamp.  Zooming out
with factor 1/2 from resolution 100×75 and cap 256 gives resolution
50×37 — below the configured minimum 100×75 — and cap 128, below the
initial cap 256 (also 37 = int(75·0.5) truncates, where rounding would
give 38). -/
theorem C4_counterexample :
    (auto_zoom ⟨0, 1, 0, 1, 100, 75, 256⟩ (1/2) 0 0).renderWidth = 50
  ∧ (auto_zoom ⟨0, 1, 0, 1, 100, 75, 256⟩ (1/2) 0 0).renderHeight = 37
  ∧ (auto_zoom ⟨0, 1, 0, 1, 100, 75, 256⟩ (1/2) 0 0).maxIter = 128
  ∧ (50 : Int) < (MIN_RENDER_WIDTH : Int)
  ∧ (37 : Int) < (MIN_RENDER_HEIGHT : Int)
  ∧ (128 : Int) < (INITIAL_MAX_ITER : Int) := by
  simp only [auto_zoom, truncInt, MAX_RENDER_WIDTH, MAX_RENDER_HEIGHT, WIDTH, HEIGHT,
    MIN_RENDER_WIDTH, MIN_RENDER_HEIGHT, INITIAL_MAX_ITER]
  norm_num

/-- If the scale factor is at least 1 and the old value nonnegative,
`min cap (int(old * factor))` does not fall below `min cap old`. -/
theorem min_truncInt_mono (c n : Int) (f : ℚ) (hn : 0 ≤ n) (hf : 1 ≤ f) :
    min c n ≤ min c (truncInt ((n : ℚ) * f)) := by
  have hn' : (0 : ℚ) ≤ (n : ℚ) := by exact_mod_cast hn
  have h0 : (0 : ℚ) ≤ (n : ℚ) * f := mul_nonneg hn' (le_trans zero_le_one hf)
  have h1 : (n : ℚ) ≤ (n : ℚ) * f := le_mul_of_one_le_right hn' hf
  have h2 : n ≤ truncInt ((n : ℚ) * f) := by
    rw [truncInt, if_pos h0]
    exact Int.le_floor.mpr h1
  exact min_le_min (le_refl c) h2

/-- C4 amended: the new per-axis resolution is
`min(maxRes, int(oldResolution * factor))` and the new cap is
`min(2048, int(oldMaxIter * factor))` — truncating `int`, not `round`,
and clamped above only; the configured minimums (100×75) and the
initial cap (256) are not enforced.  For factors ≥ 1 and nonnegative
old values the updates never decrease below the respective cap-clamped
old values. -/
theorem C4_amended_update_rule (v : Viewport) (f mx my : ℚ) :
    ((auto_zoom v f mx my).renderWidth
        = min (MAX_RENDER_WIDTH : Int) (truncInt ((v.renderWidth : ℚ) * f))
      ∧ (auto_zoom v f mx my).renderHeight
        = min (MAX_RENDER_HEIGHT : Int) (truncInt ((v.renderHeight : ℚ) * f))
      ∧ (auto_zoom v f mx my).maxIter = min 2048 (truncInt ((v.maxIter : ℚ) * f)))
  ∧ (1 ≤ f → 0 ≤ v.renderWidth → 0 ≤ v.renderHeight → 0 ≤ v.maxIter →
      (min (MAX_RENDER_WIDTH : Int) v.renderWidth ≤ (auto_zoom v f mx my).renderWidth
      ∧ min (MAX_RENDER_HEIGHT : Int) v.renderHeight ≤ (auto_zoom v f mx my).renderHeight
      ∧ min 2048 v.maxIter ≤ (auto_zoom v f mx my).maxIter)) := by
  refine ⟨⟨rfl, rfl, rfl⟩, ?_⟩
  intro hf hw hh hm
  exact ⟨min_truncInt_mono _ _ _ hw hf, min_truncInt_mono _ _ _ hh hf,
    min_truncInt_mono _ _ _ hm hf⟩

/-- Witness for the amended C4 at the initial viewport with factor 1.2. -/
theorem C4_amended_update_rule_witness :
    ((auto_zoom initialViewport (6/5) 0 0).renderWidth
        = min (MAX_RENDER_WIDTH : Int) (truncInt ((initialViewport.renderWidth : ℚ) * (6/5)))
      ∧ (auto_zoom initialViewport (6/5) 0 0).renderHeight
        = min (MAX_RENDER_HEIGHT : Int) (truncInt ((initialViewport.renderHeight : ℚ) * (6/5)))
      ∧ (auto_zoom initialViewport (6/5) 0 0).maxIter
        = min 2048 (truncInt ((initialViewport.maxIter : ℚ) * (6/5))))
  ∧ (min (MAX_RENDER_WIDTH : Int) initialViewport.renderWidth
        ≤ (auto_zoom initialViewport (6/5) 0 0).renderWidth
      ∧ min (MAX_RENDER_HEIGHT : Int) initialViewport.renderHeight
        ≤ (auto_zoom initialViewport (6/5) 0 0).renderHeight
      ∧ min 2048 initialViewport.maxIter ≤ (auto_zoom initialViewport (6/5) 0 0).maxIter) :=
  ⟨(C4_amended_update_rule initialViewport (6/5) 0 0).1,
    (C4_amended_update_rule initialViewport (6/5) 0 0).2 (by norm_num)
      (by norm_num [initialViewport]) (by norm_num [initialViewport])
      (by norm_num [initialViewport])⟩

/-- C5 counterexample: a zoom-in by 2 at screen point (0, 0) followed by
a zoom-out by 1/2 at the same point moves xmin from -2 to -17/4: the
zoom recentres on the focal point's plane image both times, so the
round trip is not the identity — the exact gap is 9/4, far beyond
floating-point tolerance. -/
theorem C5_counterexample :
    (auto_zoom (auto_zoom initialViewport 2 0 0) (1/2) 0 0).xmin = -17/4
  ∧ initialViewport.xmin = -2
  ∧ ((-17/4 : ℚ) ≠ -2) ∧ |(-17/4 : ℚ) - (-2)| = 9/4 := by
  refine ⟨?_, rfl, by norm_num, by rw [abs_sub_comm]; norm_num⟩
  simp only [auto_zoom, initialViewport, WIDTH, HEIGHT]
  norm_num

/-- C5 amended: for every nonzero factor, zoom-in then zoom-out by the
reciprocal at the same focal point restores the plane extents
(widths and heights round-trip exactly for every focal point), and
when the focal point is the screen centre (400, 300) all four plane
bounds round-trip exactly. -/
theorem C5_amended_roundtrip (v : Viewport) (f mx my : ℚ) (hf : f ≠ 0) :
    ((auto_zoom (auto_zoom v f mx my) (1/f) mx my).xmax
        - (auto_zoom (auto_zoom v f mx my) (1/f) mx my).xmin = v.xmax - v.xmin
      ∧ (auto_zoom (auto_zoom v f mx my) (1/f) mx my).ymax
        - (auto_zoom (auto_zoom v f mx my) (1/f) mx my).ymin = v.ymax - v.ymin)
  ∧ ((auto_zoom (auto_zoom v f 400 300) (1/f) 400 300).xmin = v.xmin
      ∧ (auto_zoom (auto_zoom v f 400 300) (1/f) 400 300).xmax = v.xmax
      ∧ (auto_zoom (auto_zoom v f 400 300) (1/f) 400 300).ymin = v.ymin
      ∧ (auto_zoom (auto_zoom v f 400 300) (1/f) 400 300).ymax = v.ymax) := by
  simp only [auto_zoom, WIDTH, HEIGHT]
  norm_num
  refine ⟨⟨?_, ?_⟩, ?_, ?_, ?_, ?_⟩ <;> (field_simp; try ring)

/-- Witness for the amended C5 at the initial viewport with factor 2. -/
theorem C5_amended_roundtrip_witness :
    ((2 : ℚ) ≠ 0)
  ∧ (((auto_zoom (auto_zoom initialViewport 2 5 7) (1/2) 5 7).xmax
        - (auto_zoom (auto_zoom initialViewport 2 5 7) (1/2) 5 7).xmin
        = initialViewport.xmax - initialViewport.xmin
      ∧ (auto_zoom (auto_zoom initialViewport 2 5 7) (1/2) 5 7).ymax
        - (auto_zoom (auto_zoom initialViewport 2 5 7) (1/2) 5 7).ymin
        = initialViewport.ymax - initialViewport.ymin)
  ∧ ((auto_zoom (auto_zoom initialViewport 2 400 300) (1/2) 400 300).xmin = initialViewport.xmin
      ∧ (auto_zoom (auto_zoom initialViewport 2 400 300) (1/2) 400 300).xmax = initialViewport.xmax
      ∧ (auto_zoom (auto_zoom initialViewport 2 400 300) (1/2) 400 300).ymin = initialViewport.ymin
      ∧ (auto_zoom (auto_zoom initialViewport 2 400 300) (1/2) 400 300).ymax = initialViewport.ymax)) :=
  ⟨by norm_num, C5_amended_roundtrip initialViewport 2 5 7 (by norm_num)⟩

/-- C10: for xmax > xmin, ymax > ymin and factor f > 0, the zoom
transform preserves both ordering invariants and leaves the aspect
ratio (ymax - ymin)/(xmax - xmin) unchanged, at every focal point. -/
theorem C10_zoom_invariants (v : Viewport) (f mx my : ℚ)
    (hx : v.xmin < v.xmax) (hy : v.ymin < v.ymax) (hf : 0 < f) :
    ((auto_zoom v f mx my).xmin < (auto_zoom v f mx my).xmax
      ∧ (auto_zoom v f mx my).ymin < (auto_zoom v f mx my).ymax)
  ∧ ((auto_zoom v f mx my).ymax - (auto_zoom v f mx my).ymin)
      / ((auto_zoom v f mx my).xmax - (auto_zoom v f mx my).xmin)
      = (v.ymax - v.ymin) / (v.xmax - v.xmin) := by
  have hw : (0 : ℚ) < (v.xmax - v.xmin) / f := div_pos (by linarith) hf
  have hh : (0 : ℚ) < (v.ymax - v.ymin) / f := div_pos (by linarith) hf
  have ex : (auto_zoom v f mx my).xmax - (auto_zoom v f mx my).xmin
      = (v.xmax - v.xmin) / f := by
    simp only [auto_zoom]
    ring
  have ey : (auto_zoom v f mx my).ymax - (auto_zoom v f mx my).ymin
      = (v.ymax - v.ymin) / f := by
    simp only [auto_zoom]
    ring
  refine ⟨⟨by linarith [ex, hw], by linarith [ey, hh]⟩, ?_⟩
  rw [ex, ey, div_div_div_cancel_right₀ (ne_of_gt hf)]

/-- Witness for C10 at the initial viewport with factor 2. -/
theorem C10_zoom_invariants_witness :
    (initialViewport.xmin < initialViewport.xmax ∧ initialViewport.ymin < initialViewport.ymax
      ∧ (0 : ℚ) < 2)
  ∧ (((auto_zoom initialViewport 2 5 7).xmin < (auto_zoom initialViewport 2 5 7).xmax
      ∧ (auto_zoom initialViewport 2 5 7).ymin < (auto_zoom initialViewport 2 5 7).ymax)
  ∧ ((auto_zoom initialViewport 2 5 7).ymax - (auto_zoom initialViewport 2 5 7).ymin)
      / ((auto_zoom initialViewport 2 5 7).xmax - (auto_zoom initialViewport 2 5 7).xmin)
      = (initialViewport.ymax - initialViewport.ymin)
        / (initialViewport.xmax - initialViewport.xmin)) :=
  ⟨⟨by norm_num [initialViewport], by norm_num [initialViewport], by norm_num⟩,
    C10_zoom_invariants initialViewport 2 5 7 (by norm_num [initialViewport])
      (by norm_num [initialViewport]) (by norm_num)⟩

/-! ### Colorization (C9) -/

/-- gpuset.py `draw_mandelbrot` per-pixel colour:
`iter_count == max_iter` paints black, otherwise
`(iter_count % 256, (iter_count*5) % 256, (iter_count*13) % 256)`. -/
def pixelColor (iter_count max_iter : Nat) : Nat × Nat × Nat :=
  if iter_count = max_iter then (0, 0, 0)
  else (iter_count % 256, iter_count * 5 % 256, iter_count * 13 % 256)

/-- set.py `draw_mandelbrot` per-pixel colour: grayscale with each
channel `int(count / MAX_ITER * 255)` where the global `MAX_ITER = 256`. -/
def pixelColorGray (iter_count : Nat) : Int × Int × Int :=
  let cv := truncInt ((iter_count : ℚ) / 256 * 255)
  (cv, cv, cv)

/-- C9 counterexample: the set.py colorizer does not implement the
claimed mapping — an interior cell (count 256 = MAX_ITER) is painted
white (255, 255, 255), not black, and count 5 is painted (4, 4, 4),
not (5, 25, 65). -/
theorem C9_counterexample :
    pixelColorGray 256 = (255, 255, 255)
  ∧ pixelColorGray 256 ≠ (0, 0, 0)
  ∧ pixelColorGray 5 = (4, 4, 4)
  ∧ pixelColorGray 5 ≠ (5, 25, 65) := by
  have h256 : pixelColorGray 256 = (255, 255, 255) := by
    simp only [pixelColorGray, truncInt]
    norm_num
  have h5 : pixelColorGray 5 = (4, 4, 4) := by
    simp only [pixelColorGray, truncInt]
    norm_num
  refine ⟨h256, by rw [h256]; decide, h5, by rw [h5]; decide⟩

/-- C9 amended: the gpuset.py colorizer maps a cell with count equal to
maxIter to black and every other count i to
(i mod 256, (i·5) mod 256, (i·13) mod 256); the set.py colorizer
instead paints grayscale, all three channels `int(i / 256 * 255)`. -/
theorem C9_amended_colorization (i m : Nat) :
    (pixelColor m m = (0, 0, 0)
      ∧ (i ≠ m → pixelColor i m = (i % 256, i * 5 % 256, i * 13 % 256)))
  ∧ pixelColorGray i = (truncInt ((i : ℚ) / 256 * 255),
      truncInt ((i : ℚ) / 256 * 255), truncInt ((i : ℚ) / 256 * 255)) :=
  ⟨⟨by simp [pixelColor], fun h => by simp [pixelColor, h]⟩, rfl⟩

/-- Witness for the amended C9 at counts 5 and 256 (cap 256). -/
theorem C9_amended_colorization_witness :
    (pixelColor 256 256 = (0, 0, 0) ∧ pixelColor 5 256 = (5, 25, 65))
  ∧ pixelColorGray 5 = (truncInt ((5 : ℚ) / 256 * 255),
      truncInt ((5 : ℚ) / 256 * 255), truncInt ((5 : ℚ) / 256 * 255)) :=
  ⟨⟨(C9_amended_colorization 5 256).1.1,
      by rw [(C9_amended_colorization 5 256).1.2 (by decide)]⟩,
    (C9_amended_colorization 5 256).2⟩

/-! ### Render scheduling (C7) -/

/-- gpuset.py render queue contents.  `render_queue = ThreadQueue()` is
an unbounded FIFO; `start_new_render` enqueues `True` (modelled
`some ()`); the shutdown sentinel `None` enqueued at program exit is
modelled `none`. -/
def start_new_render (q : List (Option Unit)) : List (Option Unit) := q ++ [some ()]

/-- gpuset.py `render_worker`: repeatedly `task = render_queue.get()`;
`None` breaks the loop; any other task runs one full `mandelbrot_set`
computation (plus draw) on the then-current global viewport.  This
counts the computations the worker runs over a task sequence consumed
in FIFO order. -/
def render_worker_computations : List (Option Unit) → Nat
  | [] => 0
  | none :: _ => 0
  | some _ :: rest => render_worker_computations rest + 1

/-- C7 counterexample: two render requests submitted (via
`start_new_render`) before the worker starts both get computed — the
worker performs 2 computations, not 1; queued-but-unstarted requests
are never dropped. -/
theorem C7_counterexample :
    render_worker_computations (start_new_render (start_new_render []) ++ [none]) = 2
  ∧ (2 : Nat) ≠ 1 := by
  refine ⟨rfl, by decide⟩

/-- C7 amended: the queue is an unbounded FIFO with no supersession:
every request enqueued before the shutdown sentinel is computed, so
`n` submissions yield exactly `n` computations (each reading the
global viewport current when it starts). -/
theorem C7_amended_fifo_no_drop (q : List (Option Unit)) (h : ∀ t ∈ q, t ≠ none) :
    render_worker_computations (q ++ [none]) = q.length := by
  induction q with
  | nil => rfl
  | cons t rest ih =>
      match t with
      | none => exact absurd rfl (h none (List.mem_cons_self _ _))
      | some _ =>
          simp only [List.cons_append, render_worker_computations, List.length_cons,
            List.append_eq]
          rw [ih (fun t ht => h t (List.mem_cons_of_mem _ ht))]

/-- Witness for the amended C7 with two queued requests. -/
theorem C7_amended_fifo_no_drop_witness :
    (∀ t ∈ ([some (), some ()] : List (Option Unit)), t ≠ none)
  ∧ render_worker_computations (([some (), some ()] : List (Option Unit)) ++ [none])
      = ([some (), some ()] : List (Option Unit)).length :=
  ⟨by decide, C7_amended_fifo_no_drop [some (), some ()] (by decide)⟩

end Mandelbrot
